import Mathlib

/-!
Verification of the `VerticalSlideshow` custom element
(`assets/vertical-slideshow.js`, called variant 1 below, and the second
source variant of the same class, called variant 2 below).

The DOM is shallowly embedded: a slide or thumbnail element is a record of
the attributes the component reads or writes, the component instance is a
`State` record holding the `refs` lists, the private fields and the lists
of performed scroll commands and dispatched events.  JavaScript numeric
slide indices are modelled as `ℚ` (so that fractional indices and JS array
lookup misses are representable); attribute values are `Option String`
(`none` = attribute absent).
-/

namespace VerticalSlideshow

/-- Scroll behavior option, as passed in `options.behavior`. -/
inductive Behavior
  | smooth
  | instant
deriving DecidableEq

/-- Result of `getBoundingClientRect`, restricted to the fields the code reads. -/
structure Rect where
  top : ℚ
  height : ℚ
deriving DecidableEq

/-- An element inside a slide, restricted to what `#loadSlideContent` touches:
the `src` attribute, the `data-src` attribute and whether it carries
`loading="lazy"`. -/
structure LazyElem where
  src : Option String
  dataSrc : Option String
  loadingLazy : Bool
deriving DecidableEq

/-- An `img` element inside a slide, as read by `#initializeThumbnails`. -/
structure Img where
  src : String
  alt : String
deriving DecidableEq

/-- A slide element: the attributes the component writes, the geometry it
reads, and its queryable children. -/
structure Slide where
  ariaHidden : Option String
  dataSlideIndex : Option Nat
  rect : Rect
  offsetHeight : ℚ
  img : Option Img
  thumbMarker : Option String
  elems : List LazyElem
deriving DecidableEq

/-- Content of a thumbnail button after `#initializeThumbnails` ran (or
`initial` for whatever markup was there before). -/
inductive ThumbContent
  | initial
  | html (s : String)
  | image (src : String) (alt : String)
  | label (n : Nat)
deriving DecidableEq

/-- A thumbnail button element. -/
structure Thumb where
  ariaSelected : Option String
  content : ThumbContent
deriving DecidableEq

/-- A scroll side effect performed on the media container or a slide. -/
inductive ScrollCmd
  | setScrollTop (top : ℚ)
  | scrollToSmooth (top : ℚ)
  | scrollIntoViewCenter (index : Nat) (behavior : Behavior)
deriving DecidableEq

/-- A dispatched `slide-content-loaded` custom event with its
`detail = \x7bindex, slide\x7d` payload (the slide as it reads at dispatch time). -/
structure SlideEvent where
  index : ℚ
  slide : Slide
deriving DecidableEq

/-- The `options` argument of `selectSlide`. -/
structure SelectOptions where
  behavior : Behavior
deriving DecidableEq

/-- The component state: `refs.slides` / `refs.thumbnailButtons` (absent until
initialized), the media container geometry, the `#slideHeight` cache of
variant 1, the `#isScrolling` flag, the delay of the most recently scheduled
flag-clearing timeout, whether a one-shot intersection observation started by
the scroll handler is pending, and the logs of scroll commands and events. -/
structure State where
  slides : Option (List Slide)
  thumbs : Option (List Thumb)
  containerRect : Rect
  slideHeight : Option ℚ
  isScrolling : Bool
  flagClearDelay : Option Nat
  pendingObs : Bool
  scrolls : List ScrollCmd
  events : List SlideEvent
deriving DecidableEq

/-- String rendering of a JS boolean, as produced by template interpolation. -/
def boolStr (b : Bool) : String := if b then "true" else "false"

/-- Map a function receiving the element index over a list, starting the
index counter at `k`; `mapFrom f 0` models `Array.prototype.forEach` /
index-aware mapping. -/
def mapFrom {α β : Type} (f : Nat → α → β) : Nat → List α → List β
  | _, [] => []
  | k, a :: as => f k a :: mapFrom f (k + 1) as

/-- JS array lookup `l[q]` with a numeric index: yields an element only when
`q` is a non-negative integer below the length, otherwise `undefined`. -/
def jsIndex {α : Type} (l : List α) (q : ℚ) : Option α :=
  if q.den = 1 ∧ 0 ≤ q.num ∧ q.num < (l.length : Int) then l[q.num.toNat]? else none

/-- Attribute write performed on slide `j` by `#updateSlideVisibility` with
active index `i`: `aria-hidden` becomes the string of `j !== i`. -/
def hideSetter (i : Nat) (j : Nat) (sl : Slide) : Slide :=
  { sl with ariaHidden := some (boolStr (j != i)) }

/-- Attribute write performed on thumbnail `j` by `#updateActiveThumbnail`
with active index `i`: `aria-selected` becomes the string of `j === i`. -/
def selSetter (i : Nat) (j : Nat) (b : Thumb) : Thumb :=
  { b with ariaSelected := some (boolStr (j == i)) }

/-- Slide list after `#updateSlideVisibility(i)`. -/
def visSlides (l : List Slide) (i : Nat) : List Slide := mapFrom (hideSetter i) 0 l

/-- Thumbnail list after `#updateActiveThumbnail(i)`. -/
def selThumbs (t : List Thumb) (i : Nat) : List Thumb := mapFrom (selSetter i) 0 t

/-- Method `#updateActiveThumbnail`: no-op when `refs.thumbnailButtons` is
absent, otherwise sets `aria-selected` on every button. -/
def updateActiveThumbnail (s : State) (activeIndex : Nat) : State :=
  match s.thumbs with
  | none => s
  | some t => { s with thumbs := some (selThumbs t activeIndex) }

/-- Method `#updateSlideVisibility`: no-op when `refs.slides` is absent,
otherwise sets `aria-hidden` on every slide. -/
def updateSlideVisibility (s : State) (activeIndex : Nat) : State :=
  match s.slides with
  | none => s
  | some l => { s with slides := some (visSlides l activeIndex) }

/-- Action of `#loadSlideContent` on one element matched by the
`[data-src], [loading="lazy"]` query: the JS guard `if (element.dataset.src)`
is a truthiness test, so only a present and non-empty `data-src` is
promoted — its value is copied to `src` and `data-src` removed; an absent
or empty (falsy) `data-src` leaves the element untouched. -/
def promoteElem (e : LazyElem) : LazyElem :=
  if e.dataSrc.isSome || e.loadingLazy then
    match e.dataSrc with
    | some u => if u = "" then e else { e with src := some u, dataSrc := none }
    | none => e
  else e

/-- A slide after `#loadSlideContent` processed its lazy elements. -/
def loadSlide (sl : Slide) : Slide := { sl with elems := sl.elems.map promoteElem }

/-- Method `#loadSlideContent(index)`: looks up `refs.slides?.[index]`,
returns silently on a miss, otherwise promotes the lazy elements of that
slide and dispatches `slide-content-loaded` with `\x7bindex, slide\x7d`. -/
def loadSlideContent (s : State) (index : ℚ) : State :=
  match s.slides with
  | none => s
  | some l =>
    match jsIndex l index with
    | none => s
    | some sl =>
      let sl2 := loadSlide sl
      { s with
        slides := some (l.set index.num.toNat sl2)
        events := s.events ++ [{ index := index, slide := sl2 }] }

/-- Delay of the `setTimeout` clearing `#isScrolling`:
`options.behavior === 'instant' ? 0 : 300`. -/
def behaviorDelay (b : Behavior) : Nat := if b = Behavior.instant then 0 else 300

/-- JS `a || b` on the `#slideHeight` cache: `null` and `0` are falsy. -/
def jsOrQ (a : Option ℚ) (b : ℚ) : ℚ :=
  match a with
  | some h => if h = 0 then b else h
  | none => b

/-- Method `selectSlide` of variant 2: bounds guard, target lookup guard,
set `#isScrolling`, optimistic thumbnail and visibility updates,
`scrollIntoView` on the target with `block: 'center'`, schedule clearing of
the flag, then load the content of the selected slide. -/
def selectSlideV2 (s : State) (index : ℚ) (options : SelectOptions) : State :=
  match s.slides with
  | none => s
  | some l =>
    if index < 0 ∨ (l.length : ℚ) ≤ index then s
    else
      match jsIndex l index with
      | none => s
      | some _ =>
        let i := index.num.toNat
        let s1 : State := { s with isScrolling := true }
        let s2 := updateSlideVisibility (updateActiveThumbnail s1 i) i
        let s3 : State :=
          { s2 with scrolls := s2.scrolls ++ [ScrollCmd.scrollIntoViewCenter i options.behavior] }
        let s4 : State := { s3 with flagClearDelay := some (behaviorDelay options.behavior) }
        loadSlideContent s4 index

/-- Method `selectSlide` of variant 1: same guards, flag and optimistic
updates, but the scroll is `scrollTop = index * (#slideHeight ||
targetSlide.offsetHeight)` assigned directly for `instant` and via
`scrollTo(\x7btop, behavior: 'smooth'\x7d)` otherwise. -/
def selectSlideV1 (s : State) (index : ℚ) (options : SelectOptions) : State :=
  match s.slides with
  | none => s
  | some l =>
    if index < 0 ∨ (l.length : ℚ) ≤ index then s
    else
      match jsIndex l index with
      | none => s
      | some target =>
        let i := index.num.toNat
        let s1 : State := { s with isScrolling := true }
        let s2 := updateSlideVisibility (updateActiveThumbnail s1 i) i
        let scrollTop := index * jsOrQ s.slideHeight target.offsetHeight
        let cmd := if options.behavior = Behavior.instant then ScrollCmd.setScrollTop scrollTop
          else ScrollCmd.scrollToSmooth scrollTop
        let s3 : State := { s2 with scrolls := s2.scrolls ++ [cmd] }
        let s4 : State := { s3 with flagClearDelay := some (behaviorDelay options.behavior) }
        loadSlideContent s4 index

/-- Getter `slideCount`: `refs.slides?.length || 0`. -/
def slideCount (s : State) : Nat :=
  match s.slides with
  | none => 0
  | some l => l.length

/-- Attribute writes performed on slide `j` by `#initializeSlides`:
`data-slide-index` is assigned and `aria-hidden` is `"false"` exactly for
index `0`. -/
def initSlide (j : Nat) (sl : Slide) : Slide :=
  { sl with
    dataSlideIndex := some j
    ariaHidden := some (if j = 0 then "false" else "true") }

/-- Slide list built by `#initializeSlides` from the media container
children (identical in both variants). -/
def initializeSlidesList (children : List Slide) : List Slide :=
  mapFrom initSlide 0 children

/-- Content written into thumbnail button `j` by `#initializeThumbnails`:
a `[data-thumbnail]` child of slide `j` wins, then an `img` child (with the
alt falling back to `"Slide j+1"` when empty), then the numeric label; a
missing slide leaves the button untouched.  `aria-selected` is never
written here. -/
def thumbSetter (slides : List Slide) (j : Nat) (b : Thumb) : Thumb :=
  match slides[j]? with
  | none => b
  | some sl =>
    match sl.thumbMarker with
    | some h => { b with content := ThumbContent.html h }
    | none =>
      match sl.img with
      | some im =>
        { b with content := (ThumbContent.image im.src
            (if im.alt = "" then "Slide " ++ toString (j + 1) else im.alt)) }
      | none => { b with content := ThumbContent.label (j + 1) }

/-- Thumbnail list built by `#initializeThumbnails`. -/
def initializeThumbnailsList (slides : List Slide) (buttons : List Thumb) : List Thumb :=
  mapFrom (thumbSetter slides) 0 buttons

/-- The host element as found in the document when the component attaches:
the media container children, the thumbnail buttons found by the
`.vertical-slideshow__thumbnail` selector, and the container geometry. -/
structure Host where
  children : List Slide
  thumbBtns : List Thumb
  containerRect : Rect
deriving DecidableEq

/-- State produced by `connectedCallback` of variant 2 (attribute-relevant
part): `#initializeSlides` then `#initializeThumbnails`; no flag is set, no
scroll performed, no event dispatched. -/
def connectedV2 (h : Host) : State :=
  let slides := initializeSlidesList h.children
  { slides := some slides
    thumbs := some (initializeThumbnailsList slides h.thumbBtns)
    containerRect := h.containerRect
    slideHeight := none
    isScrolling := false
    flagClearDelay := none
    pendingObs := false
    scrolls := []
    events := [] }

/-- State produced by `connectedCallback` of variant 1: additionally caches
`#slideHeight` from the first slide when the slide list is nonempty. -/
def connectedV1 (h : Host) : State :=
  let slides := initializeSlidesList h.children
  { slides := some slides
    thumbs := some (initializeThumbnailsList slides h.thumbBtns)
    containerRect := h.containerRect
    slideHeight := (h.children[0]?).map Slide.offsetHeight
    isScrolling := false
    flagClearDelay := none
    pendingObs := false
    scrolls := []
    events := [] }

/-- Vertical center of a slide, `slideRect.top + slideRect.height / 2`,
measured against the container center `cc`; `#getCurrentSlideIndex` ranks
slides by `Math.abs(slideCenter - containerCenter)`. -/
def slideDist (cc : ℚ) (sl : Slide) : ℚ := |sl.rect.top + sl.rect.height / 2 - cc|

/-- Comparison `distance < closestDistance` where `none` stands for the
initial `Infinity`. -/
def ltInf (d : ℚ) : Option ℚ → Bool
  | none => true
  | some c => decide (d < c)

/-- The `forEach` accumulation loop of `#getCurrentSlideIndex`: carries the
running element index `i` and the best `(closestIndex, closestDistance)`
pair seen so far. -/
def currentAux (cc : ℚ) : List Slide → Nat → Nat → Option ℚ → Nat × Option ℚ
  | [], _, ci, cd => (ci, cd)
  | sl :: rest, i, ci, cd =>
    if ltInf (slideDist cc sl) cd then currentAux cc rest (i + 1) i (some (slideDist cc sl))
    else currentAux cc rest (i + 1) ci cd

/-- Vertical center of the media container. -/
def containerCenter (s : State) : ℚ := s.containerRect.top + s.containerRect.height / 2

/-- Method `#getCurrentSlideIndex` of variant 2: `0` when the slide list is
absent or empty, otherwise the index whose slide center is closest to the
container center (first wins on ties, strict `<` update). -/
def getCurrentSlideIndex (s : State) : Nat :=
  match s.slides with
  | none => 0
  | some l =>
    if l.length = 0 then 0
    else (currentAux (containerCenter s) l 0 0 none).1

/-- Wheel handler of variant 2.  Returns the state after the handler and
whether `preventDefault` was called.  Reduced motion: do nothing.  Otherwise
prevent default; skip while `#isScrolling`; skip with fewer than two slides;
otherwise step the current index by the wheel direction, clamp, and select
when the index changed. -/
def handleWheel (reducedMotion : Bool) (deltaY : ℚ) (s : State) : State × Bool :=
  if reducedMotion then (s, false)
  else if s.isScrolling then (s, true)
  else
    match s.slides with
    | none => (s, true)
    | some l =>
      if l.length ≤ 1 then (s, true)
      else
        let c := getCurrentSlideIndex s
        let dir : Int := if 0 < deltaY then 1 else -1
        let nxt : Int := max 0 (min ((l.length : Int) - 1) ((c : Int) + dir))
        if nxt ≠ (c : Int) then
          (selectSlideV2 s (nxt : ℚ) { behavior := Behavior.smooth }, true)
        else (s, true)

/-- Method `next()` of variant 2: select `currentIndex + 1` when
`currentIndex < slideCount - 1` (JS number comparison, so over `Int`). -/
def nextSlide (s : State) : State :=
  let c := getCurrentSlideIndex s
  if (c : Int) < (slideCount s : Int) - 1 then
    selectSlideV2 s ((c : ℚ) + 1) { behavior := Behavior.smooth }
  else s

/-- Method `previous()` of variant 2: select `currentIndex - 1` when
`currentIndex > 0`. -/
def previousSlide (s : State) : State :=
  let c := getCurrentSlideIndex s
  if 0 < c then selectSlideV2 s ((c : ℚ) - 1) { behavior := Behavior.smooth }
  else s

/-- Synchronous prefix of the debounced scroll handler body: it checks
`#isScrolling` and the slide list, then starts the one-shot intersection
observation whose resolution is awaited. -/
def handleScrollFire (s : State) : State :=
  if s.isScrolling then s
  else
    match s.slides with
    | none => s
    | some l => if l.length = 0 then s else { s with pendingObs := true }

/-- Resumption of the scroll handler after the awaited observation resolves
with most-visible slide index `i`: the active thumbnail and slide
visibility are updated with no further check of `#isScrolling`. -/
def observationResolve (s : State) (i : Nat) : State :=
  if s.pendingObs then
    let s1 : State := { s with pendingObs := false }
    updateSlideVisibility (updateActiveThumbnail s1 i) i
  else s

/-- Events of the event-loop model: a debounced scroll-handler invocation,
the resolution of its pending observation, a programmatic smooth selection,
and the firing of the flag-clearing timeout. -/
inductive Ev
  | scrollFire
  | obsResolve (i : Nat)
  | select (q : ℚ)
  | timeoutFire
deriving DecidableEq

/-- One step of the event-loop model. -/
def stepEv (s : State) : Ev → State
  | Ev.scrollFire => handleScrollFire s
  | Ev.obsResolve i => observationResolve s i
  | Ev.select q => selectSlideV2 s q { behavior := Behavior.smooth }
  | Ev.timeoutFire => { s with isScrolling := false, flagClearDelay := none }

/-- Event listener targets of the component: the media container and the
thumbnail buttons. -/
inductive LTarget
  | media
  | thumbBtn (i : Nat)
deriving DecidableEq

/-- Event kinds the component listens for. -/
inductive LKind
  | scroll
  | wheel
  | click
  | pointerenter
deriving DecidableEq

/-- A registered listener; `fnId` is the identity of the handler function
object (JS `addEventListener` / `removeEventListener` match on it). -/
structure Listener where
  target : LTarget
  kind : LKind
  fnId : Nat
deriving DecidableEq

/-- Listener-registry state: the registered listeners, a counter supplying
the identity of each freshly created closure, the `#thumbnailClickHandlers`
map of variant 1 as `(thumbIndex, clickId, pointerId)` triples, and whether
a flag-clearing timeout is pending. -/
structure LState where
  listeners : List Listener
  nextId : Nat
  stored : List (Nat × Nat × Nat)
  timeoutPending : Bool
deriving DecidableEq

/-- Identity of the `handleScroll` field (created once at construction). -/
def scrollFnId : Nat := 0

/-- Identity of the `handleWheel` field (created once at construction). -/
def wheelFnId : Nat := 1

/-- `target.addEventListener(kind, fn)`. -/
def addL (st : LState) (t : LTarget) (k : LKind) (f : Nat) : LState :=
  { st with listeners := st.listeners ++ [{ target := t, kind := k, fnId := f }] }

/-- `target.removeEventListener(kind, fn)`: removes the first registered
listener with the same target, kind and function identity; removes nothing
when no registered listener matches. -/
def removeL (st : LState) (t : LTarget) (k : LKind) (f : Nat) : LState :=
  { st with listeners := st.listeners.erase { target := t, kind := k, fnId := f } }

/-- Variant 1 `#addThumbnailHandlers`: for each button, create a click and a
pointerenter closure, store them in the `#thumbnailClickHandlers` map, then
register both. -/
def addThumbHandlersV1 (n : Nat) (st : LState) : LState :=
  (List.range n).foldl
    (fun st i =>
      let cid := st.nextId
      let pid := st.nextId + 1
      let st1 : LState :=
        { st with nextId := st.nextId + 2, stored := st.stored ++ [(i, cid, pid)] }
      addL (addL st1 (LTarget.thumbBtn i) LKind.click cid) (LTarget.thumbBtn i)
        LKind.pointerenter pid)
    st

/-- Variant 1 `#removeThumbnailHandlers`: for each button, look the handlers
up in the map, remove both listeners and delete the map entry. -/
def removeThumbHandlersV1 (n : Nat) (st : LState) : LState :=
  (List.range n).foldl
    (fun st i =>
      match st.stored.find? (fun p => p.1 == i) with
      | none => st
      | some p =>
        let st1 := removeL st (LTarget.thumbBtn i) LKind.click p.2.1
        let st2 := removeL st1 (LTarget.thumbBtn i) LKind.pointerenter p.2.2
        { st2 with stored := st2.stored.filter (fun q => q.1 != i) })
    st

/-- Variant 2 `#addThumbnailHandlers`: fresh closures are registered and not
stored anywhere. -/
def addThumbHandlersV2 (n : Nat) (st : LState) : LState :=
  (List.range n).foldl
    (fun st i =>
      let cid := st.nextId
      let pid := st.nextId + 1
      let st1 : LState := { st with nextId := st.nextId + 2 }
      addL (addL st1 (LTarget.thumbBtn i) LKind.click cid) (LTarget.thumbBtn i)
        LKind.pointerenter pid)
    st

/-- Variant 2 `#removeThumbnailHandlers`: for each button it creates two
NEW arrow functions and passes those to `removeEventListener`; their
identities are fresh, so they never match a registered listener. -/
def removeThumbHandlersV2 (n : Nat) (st : LState) : LState :=
  (List.range n).foldl
    (fun st i =>
      let cid := st.nextId
      let pid := st.nextId + 1
      let st1 : LState := { st with nextId := st.nextId + 2 }
      removeL (removeL st1 (LTarget.thumbBtn i) LKind.click cid) (LTarget.thumbBtn i)
        LKind.pointerenter pid)
    st

/-- Listener effect of variant 1 `connectedCallback` with `n` thumbnail
buttons: scroll listener on the media container, then the thumbnail
handlers. -/
def connectV1L (n : Nat) (st : LState) : LState :=
  addThumbHandlersV1 n (addL st LTarget.media LKind.scroll scrollFnId)

/-- Listener effect of variant 1 `disconnectedCallback`: remove the scroll
listener, remove the thumbnail handlers through the map, clear any pending
timeout. -/
def disconnectV1L (n : Nat) (st : LState) : LState :=
  let st1 := removeL st LTarget.media LKind.scroll scrollFnId
  let st2 := removeThumbHandlersV1 n st1
  { st2 with timeoutPending := false }

/-- Listener effect of variant 2 `connectedCallback`: scroll and wheel
listeners on the media container, then the thumbnail handlers. -/
def connectV2L (n : Nat) (st : LState) : LState :=
  addThumbHandlersV2 n
    (addL (addL st LTarget.media LKind.scroll scrollFnId) LTarget.media LKind.wheel wheelFnId)

/-- Listener effect of variant 2 `disconnectedCallback`: remove the scroll
and wheel listeners, then attempt thumbnail handler removal with fresh
closures, clear any pending timeout. -/
def disconnectV2L (n : Nat) (st : LState) : LState :=
  let st1 := removeL st LTarget.media LKind.scroll scrollFnId
  let st2 := removeL st1 LTarget.media LKind.wheel wheelFnId
  let st3 := removeThumbHandlersV2 n st2
  { st3 with timeoutPending := false }

/-- Registry of a freshly constructed component instance with a pending
flag-clear timeout: no listeners, closure identities start above the two
stable handler fields. -/
def initL : LState :=
  { listeners := [], nextId := 2, stored := [], timeoutPending := true }

/-! Helper lemmas about the embedding. -/

theorem length_mapFrom {α β : Type} (f : Nat → α → β) :
    ∀ (l : List α) (k : Nat), (mapFrom f k l).length = l.length
  | [], _ => rfl
  | _ :: as, k => by simp [mapFrom, length_mapFrom f as (k + 1)]

theorem getElem?_mapFrom {α β : Type} (f : Nat → α → β) :
    ∀ (l : List α) (k j : Nat), (mapFrom f k l)[j]? = (l[j]?).map (f (k + j))
  | [], _, _ => by simp [mapFrom]
  | a :: as, k, 0 => by simp [mapFrom]
  | a :: as, k, j + 1 => by
    have hadd : k + 1 + j = k + (j + 1) := by omega
    simp [mapFrom, getElem?_mapFrom f as (k + 1) j, hadd]

theorem boolStr_bne (j i : Nat) : boolStr (j != i) = if j = i then "false" else "true" := by
  by_cases h : j = i <;> simp [boolStr, h]

theorem boolStr_beq (j i : Nat) : boolStr (j == i) = if j = i then "true" else "false" := by
  by_cases h : j = i <;> simp [boolStr, h]

theorem jsIndex_natCast {α : Type} (l : List α) (i : Nat) : jsIndex l (i : ℚ) = l[i]? := by
  by_cases h : i < l.length
  · simp [jsIndex, Rat.num_natCast, Rat.den_natCast, h]
  · simp only [jsIndex, Rat.num_natCast, Rat.den_natCast]
    rw [if_neg, List.getElem?_eq_none (by omega)]
    intro hcon
    exact h (by exact_mod_cast hcon.2.2)

theorem jsIndex_not_int {α : Type} (l : List α) (q : ℚ) (hden : q.den ≠ 1) :
    jsIndex l q = none := by
  simp [jsIndex, hden]

theorem getElem?_visSlides (l : List Slide) (i j : Nat) :
    (visSlides l i)[j]? = (l[j]?).map (hideSetter i j) := by
  simpa using getElem?_mapFrom (hideSetter i) l 0 j

theorem getElem?_selThumbs (t : List Thumb) (i j : Nat) :
    (selThumbs t i)[j]? = (t[j]?).map (selSetter i j) := by
  simpa using getElem?_mapFrom (selSetter i) t 0 j

theorem length_visSlides (l : List Slide) (i : Nat) : (visSlides l i).length = l.length :=
  length_mapFrom _ l 0

theorem length_selThumbs (t : List Thumb) (i : Nat) : (selThumbs t i).length = t.length :=
  length_mapFrom _ t 0

theorem loadSlide_ariaHidden (sl : Slide) : (loadSlide sl).ariaHidden = sl.ariaHidden := rfl

/-- Value of `selectSlide` (variant 2) at a valid integer index: the
optimistic updates, the scroll command, the flag and its clear delay, and
the dispatched event, all in one state equation. -/
theorem selectSlideV2_eq (s : State) (l : List Slide) (t : List Thumb) (i : Nat)
    (opts : SelectOptions) (hs : s.slides = some l) (ht : s.thumbs = some t)
    (hi : i < l.length) :
    ∃ sl, (visSlides l i)[i]? = some sl ∧
      selectSlideV2 s (i : ℚ) opts =
        { s with
          slides := some ((visSlides l i).set i (loadSlide sl))
          thumbs := some (selThumbs t i)
          isScrolling := true
          flagClearDelay := some (behaviorDelay opts.behavior)
          scrolls := s.scrolls ++ [ScrollCmd.scrollIntoViewCenter i opts.behavior]
          events := s.events ++ [{ index := (i : ℚ), slide := loadSlide sl }] } := by
  have hvl : (visSlides l i).length = l.length := length_visSlides l i
  have hvi : i < (visSlides l i).length := by omega
  refine ⟨(visSlides l i)[i], List.getElem?_eq_getElem hvi, ?_⟩
  have hguard : ¬((i : ℚ) < 0 ∨ (l.length : ℚ) ≤ (i : ℚ)) := by
    push_neg
    constructor
    · exact_mod_cast Nat.zero_le i
    · exact_mod_cast hi
  have hjs : jsIndex l (i : ℚ) = some l[i] := by
    rw [jsIndex_natCast, List.getElem?_eq_getElem hi]
  have hjs2 : jsIndex (visSlides l i) (i : ℚ) = some (visSlides l i)[i] := by
    rw [jsIndex_natCast, List.getElem?_eq_getElem hvi]
  simp only [selectSlideV2, hs, hguard, if_neg, hjs, updateActiveThumbnail,
    updateSlideVisibility, loadSlideContent, ht, hjs2, Rat.num_natCast, Int.toNat_natCast]
  simp

/-- Value of `selectSlide` (variant 1) at a valid integer index: as variant
2 but scrolling by direct offset assignment (`instant`) or smooth
`scrollTo`, with the offset computed from the cached slide height or the
target slide height. -/
theorem selectSlideV1_eq (s : State) (l : List Slide) (t : List Thumb) (i : Nat)
    (opts : SelectOptions) (hs : s.slides = some l) (ht : s.thumbs = some t)
    (hi : i < l.length) :
    ∃ sl, (visSlides l i)[i]? = some sl ∧
      selectSlideV1 s (i : ℚ) opts =
        { s with
          slides := some ((visSlides l i).set i (loadSlide sl))
          thumbs := some (selThumbs t i)
          isScrolling := true
          flagClearDelay := some (behaviorDelay opts.behavior)
          scrolls := s.scrolls ++
            [if opts.behavior = Behavior.instant then
              ScrollCmd.setScrollTop ((i : ℚ) * jsOrQ s.slideHeight l[i].offsetHeight)
            else ScrollCmd.scrollToSmooth ((i : ℚ) * jsOrQ s.slideHeight l[i].offsetHeight)]
          events := s.events ++ [{ index := (i : ℚ), slide := loadSlide sl }] } := by
  have hvl : (visSlides l i).length = l.length := length_visSlides l i
  have hvi : i < (visSlides l i).length := by omega
  refine ⟨(visSlides l i)[i], List.getElem?_eq_getElem hvi, ?_⟩
  have hguard : ¬((i : ℚ) < 0 ∨ (l.length : ℚ) ≤ (i : ℚ)) := by
    push_neg
    constructor
    · exact_mod_cast Nat.zero_le i
    · exact_mod_cast hi
  have hjs : jsIndex l (i : ℚ) = some l[i] := by
    rw [jsIndex_natCast, List.getElem?_eq_getElem hi]
  have hjs2 : jsIndex (visSlides l i) (i : ℚ) = some (visSlides l i)[i] := by
    rw [jsIndex_natCast, List.getElem?_eq_getElem hvi]
  simp only [selectSlideV1, hs, hguard, if_neg, hjs, updateActiveThumbnail,
    updateSlideVisibility, loadSlideContent, ht, hjs2, Rat.num_natCast, Int.toNat_natCast]
  simp

/-- The `aria-hidden` attribute column of the slide list. -/
def slidesAria (s : State) : Option (List (Option String)) :=
  s.slides.map (fun l => l.map Slide.ariaHidden)

/-- The `aria-selected` attribute column of the thumbnail list. -/
def thumbsAria (s : State) : Option (List (Option String)) :=
  s.thumbs.map (fun t => t.map Thumb.ariaSelected)

theorem selThumbs_aria (t : List Thumb) (i : Nat) :
    (selThumbs t i).map Thumb.ariaSelected
      = (List.range t.length).map (fun j => some (if j = i then "true" else "false")) := by
  apply List.ext_getElem?
  intro j
  rw [List.getElem?_map, getElem?_selThumbs, List.getElem?_map]
  by_cases hj : j < t.length
  · rw [List.getElem?_eq_getElem hj, List.getElem?_range hj]
    simp [selSetter, boolStr_beq]
  · rw [List.getElem?_eq_none (by omega), List.getElem?_eq_none (by simp; omega)]
    rfl

theorem postSlides_aria (l : List Slide) (i : Nat) (sl : Slide)
    (hsl : (visSlides l i)[i]? = some sl) :
    ((visSlides l i).set i (loadSlide sl)).map Slide.ariaHidden
      = (List.range l.length).map (fun j => some (if j = i then "false" else "true")) := by
  have hil : i < l.length := by
    by_contra hcon
    rw [List.getElem?_eq_none (by rw [length_visSlides]; omega)] at hsl
    cases hsl
  have hvi : i < (visSlides l i).length := by rw [length_visSlides]; omega
  have hsl2 : sl = hideSetter i i l[i] := by
    rw [getElem?_visSlides, List.getElem?_eq_getElem hil] at hsl
    simpa using hsl.symm
  apply List.ext_getElem?
  intro j
  rw [List.getElem?_map, List.getElem?_map]
  by_cases hj : j < l.length
  · rw [List.getElem?_range hj]
    by_cases hji : j = i
    · subst hji
      rw [List.getElem?_set_self hvi]
      simp [hsl2, loadSlide, hideSetter, boolStr]
    · rw [List.getElem?_set_ne (fun h => hji h.symm), getElem?_visSlides,
        List.getElem?_eq_getElem hj]
      simp [hideSetter, boolStr_bne, hji]
  · rw [List.getElem?_eq_none (by simp [length_visSlides]; omega),
      List.getElem?_eq_none (by simp; omega)]
    rfl

/-! Concrete sample elements and states used by witnesses and
counterexamples. -/

/-- A container rectangle of height 100 at the viewport top. -/
def rect0 : Rect := { top := 0, height := 100 }

/-- A plain slide at vertical offset `t`, with no attributes set and no
queryable children. -/
def mkSlide (t : ℚ) : Slide :=
  { ariaHidden := none
    dataSlideIndex := none
    rect := { top := t, height := 100 }
    offsetHeight := 100
    img := none
    thumbMarker := none
    elems := [] }

/-- A plain thumbnail button with no `aria-selected` attribute. -/
def mkThumb : Thumb := { ariaSelected := none, content := ThumbContent.initial }

/-- `n` stacked plain slides, 100 units tall each. -/
def demoSlides (n : Nat) : List Slide := (List.range n).map (fun j => mkSlide ((100 : ℚ) * j))

/-- `n` plain thumbnail buttons. -/
def demoThumbs (n : Nat) : List Thumb := (List.range n).map (fun _ => mkThumb)

/-- A component state with `n` plain slides and thumbnails, idle flags and
empty logs. -/
def demoState (n : Nat) : State :=
  { slides := some (demoSlides n)
    thumbs := some (demoThumbs n)
    containerRect := rect0
    slideHeight := none
    isScrolling := false
    flagClearDelay := none
    pendingObs := false
    scrolls := []
    events := [] }

/-! Claim theorems. -/

/-- C1: for every valid index `i`, `selectSlide(i)` (either variant) leaves
slide `i` with `aria-hidden="false"` and every other slide with
`aria-hidden="true"`, and thumbnail `i` with `aria-selected="true"` and
every other thumbnail with `aria-selected="false"`. -/
theorem c1_selectSlide_aria (s : State) (l : List Slide) (t : List Thumb) (i : Nat)
    (opts : SelectOptions) (hs : s.slides = some l) (ht : s.thumbs = some t)
    (hlen : t.length = l.length) (hi : i < l.length) :
    slidesAria (selectSlideV2 s (i : ℚ) opts)
        = some ((List.range l.length).map (fun j => some (if j = i then "false" else "true"))) ∧
      thumbsAria (selectSlideV2 s (i : ℚ) opts)
        = some ((List.range l.length).map (fun j => some (if j = i then "true" else "false"))) ∧
      slidesAria (selectSlideV1 s (i : ℚ) opts)
        = some ((List.range l.length).map (fun j => some (if j = i then "false" else "true"))) ∧
      thumbsAria (selectSlideV1 s (i : ℚ) opts)
        = some ((List.range l.length).map (fun j => some (if j = i then "true" else "false"))) := by
  obtain ⟨sl2, hsl2, heq2⟩ := selectSlideV2_eq s l t i opts hs ht hi
  obtain ⟨sl1, hsl1, heq1⟩ := selectSlideV1_eq s l t i opts hs ht hi
  rw [heq2, heq1]
  refine ⟨?_, ?_, ?_, ?_⟩ <;>
    simp [slidesAria, thumbsAria, postSlides_aria l i _ hsl2, postSlides_aria l i _ hsl1,
      selThumbs_aria, hlen]

/-- C1 witness: in a 5-slide, 5-thumbnail state, `selectSlide(3)` yields the
full expected attribute columns. -/
theorem c1_selectSlide_aria_witness :
    ((demoState 5).slides = some (demoSlides 5) ∧ (demoState 5).thumbs = some (demoThumbs 5) ∧
      (demoThumbs 5).length = (demoSlides 5).length ∧ 3 < (demoSlides 5).length) ∧
    (slidesAria (selectSlideV2 (demoState 5) ((3 : Nat) : ℚ) { behavior := Behavior.smooth })
        = some ((List.range (demoSlides 5).length).map
            (fun j => some (if j = 3 then "false" else "true"))) ∧
      thumbsAria (selectSlideV2 (demoState 5) ((3 : Nat) : ℚ) { behavior := Behavior.smooth })
        = some ((List.range (demoSlides 5).length).map
            (fun j => some (if j = 3 then "true" else "false"))) ∧
      slidesAria (selectSlideV1 (demoState 5) ((3 : Nat) : ℚ) { behavior := Behavior.smooth })
        = some ((List.range (demoSlides 5).length).map
            (fun j => some (if j = 3 then "false" else "true"))) ∧
      thumbsAria (selectSlideV1 (demoState 5) ((3 : Nat) : ℚ) { behavior := Behavior.smooth })
        = some ((List.range (demoSlides 5).length).map
            (fun j => some (if j = 3 then "true" else "false")))) :=
  ⟨⟨rfl, rfl, by decide, by decide⟩,
    c1_selectSlide_aria (demoState 5) (demoSlides 5) (demoThumbs 5) 3
      { behavior := Behavior.smooth } rfl rfl (by decide) (by decide)⟩

/-- C3: `selectSlide` with a negative index, an index at or above
`slideCount`, or an absent slide list, leaves the whole state unchanged in
both variants: no aria attribute changes, the scrolling flag is not set,
no scroll command is issued, and no content load or event dispatch
happens. -/
theorem c3_selectSlide_out_of_range_noop (s : State) (q : ℚ) (opts : SelectOptions)
    (h : s.slides = none ∨ q < 0 ∨ (slideCount s : ℚ) ≤ q) :
    selectSlideV2 s q opts = s ∧ selectSlideV1 s q opts = s ∧
      slidesAria (selectSlideV2 s q opts) = slidesAria s ∧
      thumbsAria (selectSlideV2 s q opts) = thumbsAria s ∧
      (selectSlideV2 s q opts).isScrolling = s.isScrolling ∧
      (selectSlideV2 s q opts).flagClearDelay = s.flagClearDelay ∧
      (selectSlideV2 s q opts).scrolls = s.scrolls ∧
      (selectSlideV2 s q opts).events = s.events ∧
      slidesAria (selectSlideV1 s q opts) = slidesAria s ∧
      thumbsAria (selectSlideV1 s q opts) = thumbsAria s ∧
      (selectSlideV1 s q opts).isScrolling = s.isScrolling ∧
      (selectSlideV1 s q opts).flagClearDelay = s.flagClearDelay ∧
      (selectSlideV1 s q opts).scrolls = s.scrolls ∧
      (selectSlideV1 s q opts).events = s.events := by
  have hmain : selectSlideV2 s q opts = s ∧ selectSlideV1 s q opts = s := by
    cases hs : s.slides with
    | none => exact ⟨by simp [selectSlideV2, hs], by simp [selectSlideV1, hs]⟩
    | some l =>
      have hcount : slideCount s = l.length := by rw [slideCount, hs]
      have hg : q < 0 ∨ (l.length : ℚ) ≤ q := by
        rcases h with h | h | h
        · rw [hs] at h; cases h
        · exact Or.inl h
        · rw [hcount] at h
          exact Or.inr h
      exact ⟨by simp [selectSlideV2, hs, hg], by simp [selectSlideV1, hs, hg]⟩
  obtain ⟨h2, h1⟩ := hmain
  exact ⟨h2, h1, by rw [h2], by rw [h2], by rw [h2], by rw [h2], by rw [h2], by rw [h2],
    by rw [h1], by rw [h1], by rw [h1], by rw [h1], by rw [h1], by rw [h1]⟩

/-- C3 witness: `selectSlide(7)` on a 5-slide state is the identity in both
variants, in particular leaving attributes, flag, scroll log and event log
untouched. -/
theorem c3_selectSlide_out_of_range_noop_witness :
    ((demoState 5).slides = none ∨ (7 : ℚ) < 0 ∨ (slideCount (demoState 5) : ℚ) ≤ 7) ∧
    (selectSlideV2 (demoState 5) 7 { behavior := Behavior.smooth } = demoState 5 ∧
      selectSlideV1 (demoState 5) 7 { behavior := Behavior.smooth } = demoState 5 ∧
      slidesAria (selectSlideV2 (demoState 5) 7 { behavior := Behavior.smooth })
        = slidesAria (demoState 5) ∧
      thumbsAria (selectSlideV2 (demoState 5) 7 { behavior := Behavior.smooth })
        = thumbsAria (demoState 5) ∧
      (selectSlideV2 (demoState 5) 7 { behavior := Behavior.smooth }).isScrolling
        = (demoState 5).isScrolling ∧
      (selectSlideV2 (demoState 5) 7 { behavior := Behavior.smooth }).flagClearDelay
        = (demoState 5).flagClearDelay ∧
      (selectSlideV2 (demoState 5) 7 { behavior := Behavior.smooth }).scrolls
        = (demoState 5).scrolls ∧
      (selectSlideV2 (demoState 5) 7 { behavior := Behavior.smooth }).events
        = (demoState 5).events ∧
      slidesAria (selectSlideV1 (demoState 5) 7 { behavior := Behavior.smooth })
        = slidesAria (demoState 5) ∧
      thumbsAria (selectSlideV1 (demoState 5) 7 { behavior := Behavior.smooth })
        = thumbsAria (demoState 5) ∧
      (selectSlideV1 (demoState 5) 7 { behavior := Behavior.smooth }).isScrolling
        = (demoState 5).isScrolling ∧
      (selectSlideV1 (demoState 5) 7 { behavior := Behavior.smooth }).flagClearDelay
        = (demoState 5).flagClearDelay ∧
      (selectSlideV1 (demoState 5) 7 { behavior := Behavior.smooth }).scrolls
        = (demoState 5).scrolls ∧
      (selectSlideV1 (demoState 5) 7 { behavior := Behavior.smooth }).events
        = (demoState 5).events) :=
  have h : (demoState 5).slides = none ∨ (7 : ℚ) < 0 ∨ (slideCount (demoState 5) : ℚ) ≤ 7 :=
    Or.inr (Or.inr (by decide))
  ⟨h, c3_selectSlide_out_of_range_noop (demoState 5) 7 { behavior := Behavior.smooth } h⟩

/-- C9: every `selectSlide` call with a valid index (either variant) sets
the scrolling flag and schedules its clearing after 0 ms for
`behavior: 'instant'` and 300 ms otherwise, with slide `i` visible and
thumbnail `i` selected afterwards. -/
theorem c9_selectSlide_flag_delay (s : State) (l : List Slide) (t : List Thumb) (i : Nat)
    (opts : SelectOptions) (hs : s.slides = some l) (ht : s.thumbs = some t)
    (hlen : t.length = l.length) (hi : i < l.length) :
    ((selectSlideV2 s (i : ℚ) opts).isScrolling = true ∧
      (selectSlideV2 s (i : ℚ) opts).flagClearDelay
        = some (if opts.behavior = Behavior.instant then 0 else 300) ∧
      (slidesAria (selectSlideV2 s (i : ℚ) opts)).bind (fun a => a[i]?) = some (some "false") ∧
      (thumbsAria (selectSlideV2 s (i : ℚ) opts)).bind (fun a => a[i]?) = some (some "true")) ∧
    ((selectSlideV1 s (i : ℚ) opts).isScrolling = true ∧
      (selectSlideV1 s (i : ℚ) opts).flagClearDelay
        = some (if opts.behavior = Behavior.instant then 0 else 300)) := by
  obtain ⟨sl2, hsl2, heq2⟩ := selectSlideV2_eq s l t i opts hs ht hi
  obtain ⟨sl1, hsl1, heq1⟩ := selectSlideV1_eq s l t i opts hs ht hi
  have hariaS := postSlides_aria l i _ hsl2
  have hariaT := selThumbs_aria t i
  refine ⟨⟨by rw [heq2], by rw [heq2]; rfl, ?_, ?_⟩, by rw [heq1], by rw [heq1]; rfl⟩
  · have hx : slidesAria (selectSlideV2 s (i : ℚ) opts)
        = some (((visSlides l i).set i (loadSlide sl2)).map Slide.ariaHidden) := by
      rw [heq2]
      rfl
    rw [hx, hariaS]
    show ((List.range l.length).map (fun j => some (if j = i then "false" else "true")))[i]?
      = some (some "false")
    rw [List.getElem?_map, List.getElem?_range hi]
    simp
  · have hx : thumbsAria (selectSlideV2 s (i : ℚ) opts)
        = some ((selThumbs t i).map Thumb.ariaSelected) := by
      rw [heq2]
      rfl
    have hit : i < t.length := by omega
    rw [hx, hariaT]
    show ((List.range t.length).map (fun j => some (if j = i then "true" else "false")))[i]?
      = some (some "true")
    rw [List.getElem?_map, List.getElem?_range hit]
    simp

/-- C9 witness: the scenario of the spec, `selectSlide(3, {behavior:
'instant'})` on a 5-slide instance: slide 3 visible, thumbnail 3 selected,
flag set, clearing scheduled after 0 ms (both variants for the flag). -/
theorem c9_selectSlide_flag_delay_witness :
    ((demoState 5).slides = some (demoSlides 5) ∧ (demoState 5).thumbs = some (demoThumbs 5) ∧
      (demoThumbs 5).length = (demoSlides 5).length ∧ 3 < (demoSlides 5).length) ∧
    (((selectSlideV2 (demoState 5) ((3 : Nat) : ℚ) { behavior := Behavior.instant }).isScrolling
        = true ∧
      (selectSlideV2 (demoState 5) ((3 : Nat) : ℚ)
            { behavior := Behavior.instant }).flagClearDelay
        = some (if SelectOptions.behavior { behavior := Behavior.instant } = Behavior.instant
            then 0 else 300) ∧
      (slidesAria (selectSlideV2 (demoState 5) ((3 : Nat) : ℚ)
            { behavior := Behavior.instant })).bind (fun a => a[3]?) = some (some "false") ∧
      (thumbsAria (selectSlideV2 (demoState 5) ((3 : Nat) : ℚ)
            { behavior := Behavior.instant })).bind (fun a => a[3]?) = some (some "true")) ∧
    ((selectSlideV1 (demoState 5) ((3 : Nat) : ℚ) { behavior := Behavior.instant }).isScrolling
        = true ∧
      (selectSlideV1 (demoState 5) ((3 : Nat) : ℚ)
            { behavior := Behavior.instant }).flagClearDelay
        = some (if SelectOptions.behavior { behavior := Behavior.instant } = Behavior.instant
            then 0 else 300))) :=
  ⟨⟨rfl, rfl, by decide, by decide⟩,
    c9_selectSlide_flag_delay (demoState 5) (demoSlides 5) (demoThumbs 5) 3
      { behavior := Behavior.instant } rfl rfl (by decide) (by decide)⟩

/-- C10: a fractional index strictly between the bounds passes the range
guard but misses the array lookup, so `selectSlide` is a complete no-op in
both variants. -/
theorem c10_selectSlide_fractional_noop (s : State) (l : List Slide) (q : ℚ)
    (opts : SelectOptions) (hs : s.slides = some l) (hden : q.den ≠ 1) (h0 : 0 < q)
    (hlt : q < (l.length : ℚ)) :
    jsIndex l q = none ∧ selectSlideV2 s q opts = s ∧ selectSlideV1 s q opts = s := by
  have hjs : jsIndex l q = none := jsIndex_not_int l q hden
  have hg : ¬(q < 0 ∨ (l.length : ℚ) ≤ q) := by
    push_neg
    exact ⟨le_of_lt h0, hlt⟩
  exact ⟨hjs, by simp [selectSlideV2, hs, hg, hjs], by simp [selectSlideV1, hs, hg, hjs]⟩

/-- C10 witness: `selectSlide(1.5)` (the rational `mkRat 3 2`) on a 5-slide
state is the identity. -/
theorem c10_selectSlide_fractional_noop_witness :
    ((demoState 5).slides = some (demoSlides 5) ∧ (mkRat 3 2).den ≠ 1 ∧ (0 : ℚ) < mkRat 3 2 ∧
      mkRat 3 2 < ((demoSlides 5).length : ℚ)) ∧
    (jsIndex (demoSlides 5) (mkRat 3 2) = none ∧
      selectSlideV2 (demoState 5) (mkRat 3 2) { behavior := Behavior.smooth } = demoState 5 ∧
      selectSlideV1 (demoState 5) (mkRat 3 2) { behavior := Behavior.smooth } = demoState 5) :=
  ⟨⟨rfl, by decide, by decide, by decide⟩,
    c10_selectSlide_fractional_noop (demoState 5) (demoSlides 5) (mkRat 3 2)
      { behavior := Behavior.smooth } rfl (by decide) (by decide) (by decide)⟩

/-- Number of slides currently carrying `aria-hidden="false"`. -/
def visFalseCount (s : State) : Nat :=
  match s.slides with
  | none => 0
  | some l => l.countP (fun sl => sl.ariaHidden == some "false")

/-- Number of thumbnail buttons currently carrying `aria-selected="true"`. -/
def selTrueCount (s : State) : Nat :=
  match s.thumbs with
  | none => 0
  | some t => t.countP (fun b => b.ariaSelected == some "true")

theorem mapFrom_nil {α β : Type} (f : Nat → α → β) (k : Nat) : mapFrom f k [] = [] := rfl

theorem mapFrom_cons {α β : Type} (f : Nat → α → β) (k : Nat) (a : α) (as : List α) :
    mapFrom f k (a :: as) = f k a :: mapFrom f (k + 1) as := rfl

theorem countP_mapFrom_indicator {α β : Type} (f : Nat → α → β) (p : β → Bool) (i : Nat)
    (hp : ∀ k a, p (f k a) = (k == i)) :
    ∀ (l : List α) (k : Nat),
      (mapFrom f k l).countP p = if k ≤ i ∧ i < k + l.length then 1 else 0
  | [], k => by
    simp only [List.length_nil]
    rw [if_neg (by omega)]
    rfl
  | a :: as, k => by
    rw [mapFrom_cons, List.countP_cons, countP_mapFrom_indicator f p i hp as (k + 1), hp k a]
    simp only [beq_iff_eq, List.length_cons]
    split_ifs <;> omega

theorem countP_mapFrom_congr {α : Type} (f : Nat → α → α) (p : α → Bool)
    (hp : ∀ k a, p (f k a) = p a) :
    ∀ (l : List α) (k : Nat), (mapFrom f k l).countP p = l.countP p
  | [], _ => rfl
  | a :: as, k => by
    rw [mapFrom_cons, List.countP_cons, List.countP_cons,
      countP_mapFrom_congr f p hp as (k + 1), hp k a]

theorem countP_set_congr {α : Type} (p : α → Bool) :
    ∀ (l : List α) (i : Nat) (b : α),
      (∀ hi : i < l.length, p b = p (l.get ⟨i, hi⟩)) →
      (l.set i b).countP p = l.countP p
  | [], _, _, _ => rfl
  | a :: as, 0, b, h => by
    rw [List.set_cons_zero, List.countP_cons, List.countP_cons, h (by simp)]
    rfl
  | a :: as, i + 1, b, h => by
    rw [List.set_cons_succ, List.countP_cons, List.countP_cons,
      countP_set_congr p as i b (fun hi => by simpa using h (by simpa using Nat.succ_lt_succ hi))]

theorem hideSetter_indicator (i : Nat) :
    ∀ k a, ((hideSetter i k a).ariaHidden == some "false") = (k == i) := by
  intro k a
  by_cases h : k = i <;> simp [hideSetter, boolStr, h]

theorem selSetter_indicator (i : Nat) :
    ∀ k a, ((selSetter i k a).ariaSelected == some "true") = (k == i) := by
  intro k a
  by_cases h : k = i <;> simp [selSetter, boolStr, h]

theorem initSlide_indicator :
    ∀ k a, ((initSlide k a).ariaHidden == some "false") = (k == 0) := by
  intro k a
  by_cases h : k = 0 <;> simp [initSlide, h]

theorem thumbSetter_ariaSelected (slides : List Slide) (k : Nat) (b : Thumb) :
    (thumbSetter slides k b).ariaSelected = b.ariaSelected := by
  unfold thumbSetter
  cases slides[k]? with
  | none => rfl
  | some sl =>
    cases htm : sl.thumbMarker with
    | some hstr => simp [htm]
    | none =>
      cases him : sl.img with
      | some im => simp [htm, him]
      | none => simp [htm, him]

/-- A host whose slides and thumbnails carry no aria attributes yet. -/
def demoHost (n : Nat) : Host :=
  { children := demoSlides n, thumbBtns := demoThumbs n, containerRect := rect0 }

/-- C2 counterexample: immediately after `connectedCallback` on a two-slide
host (variant 2; variant 1 initializes identically), exactly one slide is
visible but NO thumbnail button carries `aria-selected="true"` — the
initialization never writes `aria-selected`, so the claimed invariant fails
before the first selection. -/
theorem c2_counterexample :
    visFalseCount (connectedV2 (demoHost 2)) = 1 ∧
      selTrueCount (connectedV2 (demoHost 2)) = 0 ∧
      thumbsAria (connectedV2 (demoHost 2)) = some [none, none] ∧
      visFalseCount (connectedV1 (demoHost 2)) = 1 ∧
      selTrueCount (connectedV1 (demoHost 2)) = 0 := by
  refine ⟨?_, ?_, ?_, ?_, ?_⟩ <;> decide

/-- C2 (amended): after initialization exactly one slide (index 0) has
`aria-hidden="false"` but no thumbnail has `aria-selected="true"` (assuming
the markup did not pre-set it); after every `selectSlide` with a valid index
exactly one slide has `aria-hidden="false"` and exactly one thumbnail has
`aria-selected="true"`, both at the selected index. -/
theorem c2_amended_invariant (h : Host) (s : State) (l : List Slide) (t : List Thumb)
    (i : Nat) (opts : SelectOptions) (hne : h.children ≠ [])
    (hsel : ∀ b ∈ h.thumbBtns, b.ariaSelected ≠ some "true")
    (hs : s.slides = some l) (ht : s.thumbs = some t) (hlen : t.length = l.length)
    (hi : i < l.length) :
    (visFalseCount (connectedV2 h) = 1 ∧ selTrueCount (connectedV2 h) = 0 ∧
      (slidesAria (connectedV2 h)).bind (fun a => a[0]?) = some (some "false") ∧
      visFalseCount (connectedV1 h) = 1 ∧ selTrueCount (connectedV1 h) = 0) ∧
    (visFalseCount (selectSlideV2 s (i : ℚ) opts) = 1 ∧
      selTrueCount (selectSlideV2 s (i : ℚ) opts) = 1 ∧
      (slidesAria (selectSlideV2 s (i : ℚ) opts)).bind (fun a => a[i]?)
        = some (some "false") ∧
      (thumbsAria (selectSlideV2 s (i : ℚ) opts)).bind (fun a => a[i]?)
        = some (some "true")) := by
  have hlen0 : 0 < h.children.length := List.length_pos.mpr hne
  have hinitVis : (initializeSlidesList h.children).countP
      (fun sl => sl.ariaHidden == some "false") = 1 := by
    rw [initializeSlidesList,
      countP_mapFrom_indicator initSlide _ 0 initSlide_indicator h.children 0]
    simp [hlen0]
  have hinitSel : (initializeThumbnailsList (initializeSlidesList h.children)
      h.thumbBtns).countP (fun b => b.ariaSelected == some "true") = 0 := by
    rw [initializeThumbnailsList,
      countP_mapFrom_congr (thumbSetter (initializeSlidesList h.children)) _
        (fun k a => by rw [thumbSetter_ariaSelected]) h.thumbBtns 0]
    rw [List.countP_eq_zero]
    intro b hb
    simpa using hsel b hb
  have hinit0 : ((initializeSlidesList h.children).map Slide.ariaHidden)[0]?
      = some (some "false") := by
    rw [List.getElem?_map, initializeSlidesList, getElem?_mapFrom,
      List.getElem?_eq_getElem hlen0]
    simp [initSlide]
  obtain ⟨sl2, hsl2, heq2⟩ := selectSlideV2_eq s l t i opts hs ht hi
  have hvl : (visSlides l i).length = l.length := length_visSlides l i
  have hvi : i < (visSlides l i).length := by omega
  have hselVis : ((visSlides l i).set i (loadSlide sl2)).countP
      (fun sl => sl.ariaHidden == some "false") = 1 := by
    rw [countP_set_congr _ (visSlides l i) i (loadSlide sl2) ?_]
    · rw [visSlides, countP_mapFrom_indicator (hideSetter i) _ i (hideSetter_indicator i) l 0]
      simp [hi]
    · intro hi2
      have : (visSlides l i).get ⟨i, hi2⟩ = sl2 := by
        have := List.getElem?_eq_getElem hi2
        rw [hsl2] at this
        simpa using this.symm
      rw [this, loadSlide_ariaHidden]
  have hselSel : (selThumbs t i).countP (fun b => b.ariaSelected == some "true") = 1 := by
    rw [selThumbs, countP_mapFrom_indicator (selSetter i) _ i (selSetter_indicator i) t 0]
    have : i < t.length := by omega
    simp [this]
  refine ⟨⟨?_, ?_, ?_, ?_, ?_⟩, ?_, ?_, ?_, ?_⟩
  · simpa [visFalseCount, connectedV2] using hinitVis
  · simpa [selTrueCount, connectedV2] using hinitSel
  · simpa [slidesAria, connectedV2] using hinit0
  · simpa [visFalseCount, connectedV1] using hinitVis
  · simpa [selTrueCount, connectedV1] using hinitSel
  · rw [heq2]
    simpa [visFalseCount] using hselVis
  · rw [heq2]
    simpa [selTrueCount] using hselSel
  · have hx : slidesAria (selectSlideV2 s (i : ℚ) opts)
        = some (((visSlides l i).set i (loadSlide sl2)).map Slide.ariaHidden) := by
      rw [heq2]
      rfl
    rw [hx, postSlides_aria l i _ hsl2]
    show ((List.range l.length).map (fun j => some (if j = i then "false" else "true")))[i]?
      = some (some "false")
    rw [List.getElem?_map, List.getElem?_range hi]
    simp
  · have hx : thumbsAria (selectSlideV2 s (i : ℚ) opts)
        = some ((selThumbs t i).map Thumb.ariaSelected) := by
      rw [heq2]
      rfl
    have hit : i < t.length := by omega
    rw [hx, selThumbs_aria]
    show ((List.range t.length).map (fun j => some (if j = i then "true" else "false")))[i]?
      = some (some "true")
    rw [List.getElem?_map, List.getElem?_range hit]
    simp

/-- C2 amended witness: three-slide host and state, selecting index 1. -/
theorem c2_amended_invariant_witness :
    ((demoHost 3).children ≠ [] ∧
      (∀ b ∈ (demoHost 3).thumbBtns, b.ariaSelected ≠ some "true") ∧
      (demoState 3).slides = some (demoSlides 3) ∧ (demoState 3).thumbs = some (demoThumbs 3) ∧
      (demoThumbs 3).length = (demoSlides 3).length ∧ 1 < (demoSlides 3).length) ∧
    ((visFalseCount (connectedV2 (demoHost 3)) = 1 ∧
        selTrueCount (connectedV2 (demoHost 3)) = 0 ∧
        (slidesAria (connectedV2 (demoHost 3))).bind (fun a => a[0]?) = some (some "false") ∧
        visFalseCount (connectedV1 (demoHost 3)) = 1 ∧
        selTrueCount (connectedV1 (demoHost 3)) = 0) ∧
      (visFalseCount (selectSlideV2 (demoState 3) ((1 : Nat) : ℚ)
          { behavior := Behavior.smooth }) = 1 ∧
        selTrueCount (selectSlideV2 (demoState 3) ((1 : Nat) : ℚ)
          { behavior := Behavior.smooth }) = 1 ∧
        (slidesAria (selectSlideV2 (demoState 3) ((1 : Nat) : ℚ)
            { behavior := Behavior.smooth })).bind (fun a => a[1]?) = some (some "false") ∧
        (thumbsAria (selectSlideV2 (demoState 3) ((1 : Nat) : ℚ)
            { behavior := Behavior.smooth })).bind (fun a => a[1]?) = some (some "true"))) :=
  ⟨⟨by decide, by decide, rfl, rfl, by decide, by decide⟩,
    c2_amended_invariant (demoHost 3) (demoState 3) (demoSlides 3) (demoThumbs 3) 1
      { behavior := Behavior.smooth } (by decide) (by decide) rfl rfl (by decide) (by decide)⟩

/-- An element with a deferred source and no lazy-loading marker. -/
def dsElem : LazyElem := { src := none, dataSrc := some "img.jpg", loadingLazy := false }

/-- An element carrying only `loading="lazy"`, no `data-src`. -/
def lzElem : LazyElem := { src := none, dataSrc := none, loadingLazy := true }

/-- A slide whose only queryable element carries only the lazy marker. -/
def lazySlide : Slide := { mkSlide 0 with elems := [lzElem] }

/-- A single-slide state around `lazySlide`. -/
def lazyState : State := { demoState 1 with slides := some [lazySlide] }

/-- A slide with one deferred-source element and one lazy-only element. -/
def richSlide : Slide := { mkSlide 0 with elems := [dsElem, lzElem] }

/-- A single-slide state around `richSlide`. -/
def richState : State := { demoState 1 with slides := some [richSlide] }

/-- C6 counterexample: an element carrying only `loading="lazy"` (no
`data-src`) is matched by the loader query but left completely unchanged —
no source is copied and the lazy marker is not removed, contradicting the
claim that every such element is promoted and its marker removed. -/
theorem c6_counterexample :
    (loadSlideContent lazyState 0).slides.map (fun l => l.map Slide.elems)
        = some [[{ src := none, dataSrc := none, loadingLazy := true }]] ∧
      promoteElem { src := none, dataSrc := none, loadingLazy := true }
        = { src := none, dataSrc := none, loadingLazy := true } := by
  exact ⟨by decide, by decide⟩

/-- C6 (amended): on a load of slide `i`, every element of that slide
carrying a non-empty `data-src` has the value copied to `src` and
`data-src` removed; elements with an empty `data-src` or without one (even
those with `loading="lazy"`) are left unchanged; afterwards one
`slide-content-loaded` event with detail `\x7bindex, slide\x7d` is
appended. -/
theorem c6_loadSlideContent_promotes (s : State) (l : List Slide) (i : Nat)
    (hs : s.slides = some l) (hi : i < l.length) :
    (loadSlideContent s (i : ℚ)).slides = some (l.set i (loadSlide l[i])) ∧
      (loadSlideContent s (i : ℚ)).events
        = s.events ++ [{ index := (i : ℚ), slide := loadSlide l[i] }] ∧
      (loadSlide l[i]).elems = l[i].elems.map promoteElem ∧
      (∀ e : LazyElem, ∀ u, e.dataSrc = some u → u ≠ "" →
        promoteElem e = { e with src := some u, dataSrc := none }) ∧
      (∀ e : LazyElem, e.dataSrc = some "" → promoteElem e = e) ∧
      (∀ e : LazyElem, e.dataSrc = none → promoteElem e = e) := by
  have hjs : jsIndex l (i : ℚ) = some l[i] := by
    rw [jsIndex_natCast, List.getElem?_eq_getElem hi]
  refine ⟨?_, ?_, rfl, ?_, ?_, ?_⟩
  · simp [loadSlideContent, hs, hjs, Rat.num_natCast, Int.toNat_natCast]
  · simp [loadSlideContent, hs, hjs]
  · intro e u h hu
    simp [promoteElem, h, hu]
  · intro e h
    simp [promoteElem, h]
  · intro e h
    cases hb : e.loadingLazy <;> simp [promoteElem, h, hb]

/-- C6 amended witness: loading the single slide of `richState` promotes
the deferred-source element, leaves the lazy-only element alone, and
appends the notification event. -/
theorem c6_loadSlideContent_promotes_witness :
    (richState.slides = some [richSlide] ∧ 0 < [richSlide].length) ∧
    ((loadSlideContent richState ((0 : Nat) : ℚ)).slides
        = some ([richSlide].set 0 (loadSlide [richSlide][0])) ∧
      (loadSlideContent richState ((0 : Nat) : ℚ)).events
        = richState.events ++ [{ index := ((0 : Nat) : ℚ), slide := loadSlide [richSlide][0] }] ∧
      (loadSlide [richSlide][0]).elems = [richSlide][0].elems.map promoteElem ∧
      (∀ e : LazyElem, ∀ u, e.dataSrc = some u → u ≠ "" →
        promoteElem e = { e with src := some u, dataSrc := none }) ∧
      (∀ e : LazyElem, e.dataSrc = some "" → promoteElem e = e) ∧
      (∀ e : LazyElem, e.dataSrc = none → promoteElem e = e)) :=
  ⟨⟨rfl, by decide⟩,
    c6_loadSlideContent_promotes richState [richSlide] 0 rfl (by decide)⟩

/-- C4 counterexample: on a two-slide instance, a debounced scroll handler
starts its observation while the flag is clear, `selectSlide(1)` then sets
the flag and optimistically shows slide 1, and the observation resolves with
the still-most-visible slide 0 — the handler (which never rechecks the
flag after its await) overwrites the optimistic update while
`#isScrolling` is true, flickering the UI back to the previous index. -/
theorem c4_counterexample :
    (stepEv (stepEv (demoState 2) Ev.scrollFire) (Ev.select 1)).isScrolling = true ∧
      slidesAria (stepEv (stepEv (demoState 2) Ev.scrollFire) (Ev.select 1))
        = some [some "true", some "false"] ∧
      (stepEv (stepEv (stepEv (demoState 2) Ev.scrollFire) (Ev.select 1))
          (Ev.obsResolve 0)).isScrolling = true ∧
      slidesAria (stepEv (stepEv (stepEv (demoState 2) Ev.scrollFire) (Ev.select 1))
          (Ev.obsResolve 0)) = some [some "false", some "true"] ∧
      thumbsAria (stepEv (stepEv (stepEv (demoState 2) Ev.scrollFire) (Ev.select 1))
          (Ev.obsResolve 0)) = some [some "true", some "false"] := by
  refine ⟨?_, ?_, ?_, ?_, ?_⟩ <;> decide

/-- C4 (amended): a scroll-handler invocation that begins while the
scrolling flag is active performs no recomputation and leaves the state
unchanged; only an observation started before the flag was set can resolve
during the guard window. -/
theorem c4_guard_skips_while_scrolling (s : State) (h : s.isScrolling = true) :
    stepEv s Ev.scrollFire = s ∧ handleScrollFire s = s := by
  constructor <;> simp [stepEv, handleScrollFire, h]

/-- A state in the middle of a programmatic scroll. -/
def busyState : State := { demoState 2 with isScrolling := true }

/-- C4 amended witness: firing the scroll handler on a mid-scroll state
changes nothing. -/
theorem c4_guard_skips_while_scrolling_witness :
    busyState.isScrolling = true ∧
      (stepEv busyState Ev.scrollFire = busyState ∧ handleScrollFire busyState = busyState) :=
  ⟨rfl, c4_guard_skips_while_scrolling busyState rfl⟩

/-- C8: evaluation of the listener registry across attach and detach with
one thumbnail button.  Variant 1 (which stores its handlers in a map)
removes everything; variant 2 passes freshly created closures to
`removeEventListener`, so its thumbnail click and pointerenter listeners
survive `disconnectedCallback` — only the scroll and wheel listeners and
the pending timeout are cleaned up. -/
theorem c8_disconnect_eval :
    (disconnectV2L 1 (connectV2L 1 initL)).listeners
        = [{ target := LTarget.thumbBtn 0, kind := LKind.click, fnId := 2 },
           { target := LTarget.thumbBtn 0, kind := LKind.pointerenter, fnId := 3 }] ∧
      (disconnectV2L 1 (connectV2L 1 initL)).listeners ≠ [] ∧
      (disconnectV1L 1 (connectV1L 1 initL)).listeners = [] ∧
      (disconnectV2L 1 (connectV2L 1 initL)).timeoutPending = false ∧
      (disconnectV1L 1 (connectV1L 1 initL)).timeoutPending = false := by
  refine ⟨?_, ?_, ?_, ?_, ?_⟩ <;> decide

theorem ltInf_none (d : ℚ) : ltInf d none = true := rfl

theorem ltInf_some (d c : ℚ) : ltInf d (some c) = decide (d < c) := rfl

theorem currentAux_nil (cc : ℚ) (i ci : Nat) (cd : Option ℚ) :
    currentAux cc [] i ci cd = (ci, cd) := rfl

theorem currentAux_cons (cc : ℚ) (sl : Slide) (rest : List Slide) (i ci : Nat)
    (cd : Option ℚ) :
    currentAux cc (sl :: rest) i ci cd
      = if ltInf (slideDist cc sl) cd then
          currentAux cc rest (i + 1) i (some (slideDist cc sl))
        else currentAux cc rest (i + 1) ci cd := rfl

theorem currentAux_acc_le (cc : ℚ) :
    ∀ (l : List Slide) (i ci : Nat) (cd : Option ℚ) (cv : ℚ), cd = some cv →
      ∃ rv, (currentAux cc l i ci cd).2 = some rv ∧ rv ≤ cv
  | [], _, _, _, cv, h => ⟨cv, by simp [currentAux_nil, h], le_refl cv⟩
  | sl :: rest, i, ci, cd, cv, h => by
    rw [currentAux_cons]
    by_cases hlt : ltInf (slideDist cc sl) cd = true
    · rw [if_pos hlt]
      obtain ⟨rv, hrv, hle⟩ :=
        currentAux_acc_le cc rest (i + 1) i (some (slideDist cc sl)) (slideDist cc sl) rfl
      have hdc : slideDist cc sl < cv := by
        rw [h, ltInf_some, decide_eq_true_eq] at hlt
        exact hlt
      exact ⟨rv, hrv, le_trans hle (le_of_lt hdc)⟩
    · rw [if_neg hlt]
      exact currentAux_acc_le cc rest (i + 1) ci cd cv h

theorem currentAux_le_elem (cc : ℚ) :
    ∀ (l : List Slide) (i ci : Nat) (cd : Option ℚ) (j : Nat) (hj : j < l.length),
      ∃ rv, (currentAux cc l i ci cd).2 = some rv ∧ rv ≤ slideDist cc (l.get ⟨j, hj⟩)
  | [], _, _, _, j, hj => absurd hj (by simp)
  | sl :: rest, i, ci, cd, 0, hj => by
    rw [currentAux_cons]
    by_cases hlt : ltInf (slideDist cc sl) cd = true
    · rw [if_pos hlt]
      simpa using
        currentAux_acc_le cc rest (i + 1) i (some (slideDist cc sl)) (slideDist cc sl) rfl
    · rw [if_neg hlt]
      cases cd with
      | none => exact absurd (ltInf_none (slideDist cc sl)) hlt
      | some cv =>
        have hcv : cv ≤ slideDist cc sl := by
          rw [ltInf_some] at hlt
          simpa using le_of_not_lt (fun hx => hlt (decide_eq_true hx))
        obtain ⟨rv, hrv, hle⟩ := currentAux_acc_le cc rest (i + 1) ci (some cv) cv rfl
        exact ⟨rv, hrv, le_trans hle (by simpa using hcv)⟩
  | sl :: rest, i, ci, cd, j + 1, hj => by
    rw [currentAux_cons]
    have hj2 : j < rest.length := by simpa using Nat.lt_of_succ_lt_succ hj
    have hget : (sl :: rest).get ⟨j + 1, hj⟩ = rest.get ⟨j, hj2⟩ := by
      simp [List.get_eq_getElem]
    rw [hget]
    by_cases hlt : ltInf (slideDist cc sl) cd = true
    · rw [if_pos hlt]
      exact currentAux_le_elem cc rest (i + 1) i (some (slideDist cc sl)) j hj2
    · rw [if_neg hlt]
      exact currentAux_le_elem cc rest (i + 1) ci cd j hj2

theorem currentAux_result (cc : ℚ) :
    ∀ (l : List Slide) (i ci : Nat) (cd : Option ℚ),
      currentAux cc l i ci cd = (ci, cd) ∨
        ∃ j, ∃ hj : j < l.length,
          currentAux cc l i ci cd = (i + j, some (slideDist cc (l.get ⟨j, hj⟩)))
  | [], _, _, _ => Or.inl rfl
  | sl :: rest, i, ci, cd => by
    rw [currentAux_cons]
    by_cases hlt : ltInf (slideDist cc sl) cd = true
    · rw [if_pos hlt]
      rcases currentAux_result cc rest (i + 1) i (some (slideDist cc sl)) with h | ⟨j, hj, h⟩
      · refine Or.inr ⟨0, by simp, ?_⟩
        rw [h]
        simp [List.get_eq_getElem]
      · refine Or.inr ⟨j + 1, by simpa using Nat.succ_lt_succ hj, ?_⟩
        rw [h]
        have h1 : i + 1 + j = i + (j + 1) := by omega
        have h2 : rest.get ⟨j, hj⟩
            = (sl :: rest).get ⟨j + 1, by simpa using Nat.succ_lt_succ hj⟩ := by
          simp [List.get_eq_getElem]
        rw [h1, h2]
    · rw [if_neg hlt]
      rcases currentAux_result cc rest (i + 1) ci cd with h | ⟨j, hj, h⟩
      · exact Or.inl h
      · refine Or.inr ⟨j + 1, by simpa using Nat.succ_lt_succ hj, ?_⟩
        rw [h]
        have h1 : i + 1 + j = i + (j + 1) := by omega
        have h2 : rest.get ⟨j, hj⟩
            = (sl :: rest).get ⟨j + 1, by simpa using Nat.succ_lt_succ hj⟩ := by
          simp [List.get_eq_getElem]
        rw [h1, h2]

/-- The index computed by `#getCurrentSlideIndex` on a nonempty slide list
is in range and its slide center realizes the minimal distance to the
container center (the "closest slide" of the spec). -/
theorem getCurrentSlideIndex_spec (s : State) (l : List Slide) (hs : s.slides = some l)
    (hne : l ≠ []) :
    getCurrentSlideIndex s < l.length ∧
      ∀ j (hj : j < l.length) (hc : getCurrentSlideIndex s < l.length),
        slideDist (containerCenter s) (l.get ⟨getCurrentSlideIndex s, hc⟩)
          ≤ slideDist (containerCenter s) (l.get ⟨j, hj⟩) := by
  have hlen : ¬l.length = 0 := by simpa using hne
  have hlenpos : 0 < l.length := by omega
  have hidx : getCurrentSlideIndex s = (currentAux (containerCenter s) l 0 0 none).1 := by
    rw [getCurrentSlideIndex, hs]
    simp [hlen]
  rcases currentAux_result (containerCenter s) l 0 0 none with h | ⟨j, hj, h⟩
  · obtain ⟨rv, hrv, _⟩ := currentAux_le_elem (containerCenter s) l 0 0 none 0 hlenpos
    rw [h] at hrv
    cases hrv
  · have hgi : getCurrentSlideIndex s = j := by rw [hidx, h]; simp
    constructor
    · omega
    · intro j' hj' hc
      obtain ⟨rv, hrv, hle⟩ := currentAux_le_elem (containerCenter s) l 0 0 none j' hj'
      rw [h] at hrv
      have hrv2 : slideDist (containerCenter s) (l.get ⟨j, hj⟩) = rv := by
        simpa using hrv
      have hfin : (⟨getCurrentSlideIndex s, hc⟩ : Fin l.length) = ⟨j, hj⟩ := Fin.ext hgi
      rw [hfin, hrv2]
      exact hle

/-- After `selectSlide(i)` (variant 2) at a valid index, slide `i` reads
`aria-hidden="false"` and thumbnail `i` reads `aria-selected="true"`. -/
theorem selectSlideV2_aria_at (s : State) (l : List Slide) (t : List Thumb) (i : Nat)
    (opts : SelectOptions) (hs : s.slides = some l) (ht : s.thumbs = some t)
    (hlen : t.length = l.length) (hi : i < l.length) :
    (slidesAria (selectSlideV2 s (i : ℚ) opts)).bind (fun a => a[i]?) = some (some "false") ∧
      (thumbsAria (selectSlideV2 s (i : ℚ) opts)).bind (fun a => a[i]?) = some (some "true") := by
  obtain ⟨sl2, hsl2, heq2⟩ := selectSlideV2_eq s l t i opts hs ht hi
  constructor
  · have hx : slidesAria (selectSlideV2 s (i : ℚ) opts)
        = some (((visSlides l i).set i (loadSlide sl2)).map Slide.ariaHidden) := by
      rw [heq2]
      rfl
    rw [hx, postSlides_aria l i _ hsl2]
    show ((List.range l.length).map (fun j => some (if j = i then "false" else "true")))[i]?
      = some (some "false")
    rw [List.getElem?_map, List.getElem?_range hi]
    simp
  · have hx : thumbsAria (selectSlideV2 s (i : ℚ) opts)
        = some ((selThumbs t i).map Thumb.ariaSelected) := by
      rw [heq2]
      rfl
    have hit : i < t.length := by omega
    rw [hx, selThumbs_aria]
    show ((List.range t.length).map (fun j => some (if j = i then "true" else "false")))[i]?
      = some (some "true")
    rw [List.getElem?_map, List.getElem?_range hit]
    simp

/-- C7: `next()` is a no-op when the current index is the last slide and
otherwise selects current index + 1; `previous()` is a no-op at index 0 and
otherwise selects current index - 1; the selected index always differs from
the current one by exactly one, and the selected slide and thumbnail end up
marked active. -/
theorem c7_next_previous (s : State) (l : List Slide) (t : List Thumb)
    (hs : s.slides = some l) (ht : s.thumbs = some t) (hlen : t.length = l.length)
    (hne : l ≠ []) :
    getCurrentSlideIndex s < l.length ∧
      (getCurrentSlideIndex s = l.length - 1 → nextSlide s = s) ∧
      (getCurrentSlideIndex s < l.length - 1 →
        nextSlide s = selectSlideV2 s ((getCurrentSlideIndex s : ℚ) + 1)
            { behavior := Behavior.smooth } ∧
          (getCurrentSlideIndex s + 1) - getCurrentSlideIndex s = 1 ∧
          (slidesAria (nextSlide s)).bind (fun a => a[getCurrentSlideIndex s + 1]?)
            = some (some "false") ∧
          (thumbsAria (nextSlide s)).bind (fun a => a[getCurrentSlideIndex s + 1]?)
            = some (some "true")) ∧
      (getCurrentSlideIndex s = 0 → previousSlide s = s) ∧
      (0 < getCurrentSlideIndex s →
        previousSlide s = selectSlideV2 s ((getCurrentSlideIndex s : ℚ) - 1)
            { behavior := Behavior.smooth } ∧
          getCurrentSlideIndex s - (getCurrentSlideIndex s - 1) = 1 ∧
          (slidesAria (previousSlide s)).bind (fun a => a[getCurrentSlideIndex s - 1]?)
            = some (some "false") ∧
          (thumbsAria (previousSlide s)).bind (fun a => a[getCurrentSlideIndex s - 1]?)
            = some (some "true")) := by
  obtain ⟨hc, _⟩ := getCurrentSlideIndex_spec s l hs hne
  have hlenpos : 0 < l.length := by omega
  have hcount : slideCount s = l.length := by rw [slideCount, hs]
  refine ⟨hc, ?_, ?_, ?_, ?_⟩
  · intro hlast
    simp only [nextSlide, hcount]
    rw [if_neg (by omega)]
  · intro hmid
    have hcond : ((getCurrentSlideIndex s : Int) < (slideCount s : Int) - 1) := by
      rw [hcount]; omega
    have hnexteq : nextSlide s = selectSlideV2 s ((getCurrentSlideIndex s : ℚ) + 1)
        { behavior := Behavior.smooth } := by
      simp only [nextSlide]
      rw [if_pos hcond]
    have hcast : ((getCurrentSlideIndex s : ℚ) + 1)
        = ((getCurrentSlideIndex s + 1 : Nat) : ℚ) := by push_cast; ring
    have haria := selectSlideV2_aria_at s l t (getCurrentSlideIndex s + 1)
      { behavior := Behavior.smooth } hs ht hlen (by omega)
    refine ⟨hnexteq, by omega, ?_, ?_⟩
    · rw [hnexteq, hcast]
      exact haria.1
    · rw [hnexteq, hcast]
      exact haria.2
  · intro hfirst
    simp only [previousSlide]
    rw [if_neg (by omega)]
  · intro hpos
    have hpreveq : previousSlide s = selectSlideV2 s ((getCurrentSlideIndex s : ℚ) - 1)
        { behavior := Behavior.smooth } := by
      simp only [previousSlide]
      rw [if_pos hpos]
    have hcast : ((getCurrentSlideIndex s : ℚ) - 1)
        = ((getCurrentSlideIndex s - 1 : Nat) : ℚ) := by
      push_cast [Nat.cast_sub (by omega : 1 ≤ getCurrentSlideIndex s)]
      ring
    have haria := selectSlideV2_aria_at s l t (getCurrentSlideIndex s - 1)
      { behavior := Behavior.smooth } hs ht hlen (by omega)
    refine ⟨hpreveq, by omega, ?_, ?_⟩
    · rw [hpreveq, hcast]
      exact haria.1
    · rw [hpreveq, hcast]
      exact haria.2

/-- C7 witness: three plain slides and thumbnails. -/
theorem c7_next_previous_witness :
    ((demoState 3).slides = some (demoSlides 3) ∧ (demoState 3).thumbs = some (demoThumbs 3) ∧
      (demoThumbs 3).length = (demoSlides 3).length ∧ demoSlides 3 ≠ []) ∧
    (getCurrentSlideIndex (demoState 3) < (demoSlides 3).length ∧
      (getCurrentSlideIndex (demoState 3) = (demoSlides 3).length - 1 →
        nextSlide (demoState 3) = demoState 3) ∧
      (getCurrentSlideIndex (demoState 3) < (demoSlides 3).length - 1 →
        nextSlide (demoState 3) = selectSlideV2 (demoState 3)
            ((getCurrentSlideIndex (demoState 3) : ℚ) + 1) { behavior := Behavior.smooth } ∧
          (getCurrentSlideIndex (demoState 3) + 1) - getCurrentSlideIndex (demoState 3) = 1 ∧
          (slidesAria (nextSlide (demoState 3))).bind
              (fun a => a[getCurrentSlideIndex (demoState 3) + 1]?) = some (some "false") ∧
          (thumbsAria (nextSlide (demoState 3))).bind
              (fun a => a[getCurrentSlideIndex (demoState 3) + 1]?) = some (some "true")) ∧
      (getCurrentSlideIndex (demoState 3) = 0 → previousSlide (demoState 3) = demoState 3) ∧
      (0 < getCurrentSlideIndex (demoState 3) →
        previousSlide (demoState 3) = selectSlideV2 (demoState 3)
            ((getCurrentSlideIndex (demoState 3) : ℚ) - 1) { behavior := Behavior.smooth } ∧
          getCurrentSlideIndex (demoState 3) - (getCurrentSlideIndex (demoState 3) - 1) = 1 ∧
          (slidesAria (previousSlide (demoState 3))).bind
              (fun a => a[getCurrentSlideIndex (demoState 3) - 1]?) = some (some "false") ∧
          (thumbsAria (previousSlide (demoState 3))).bind
              (fun a => a[getCurrentSlideIndex (demoState 3) - 1]?) = some (some "true"))) :=
  ⟨⟨rfl, rfl, by decide, by decide⟩,
    c7_next_previous (demoState 3) (demoSlides 3) (demoThumbs 3) rfl rfl (by decide) (by decide)⟩

/-- Reduction of the wheel handler on the active path: no reduced motion,
no programmatic scroll in flight, at least two slides. -/
theorem handleWheel_active (s : State) (l : List Slide) (deltaY : ℚ)
    (hs : s.slides = some l) (hsc : s.isScrolling = false) (hlen : 1 < l.length) :
    handleWheel false deltaY s
      = if max 0 (min ((l.length : Int) - 1)
              ((getCurrentSlideIndex s : Int) + (if 0 < deltaY then 1 else -1)))
            ≠ (getCurrentSlideIndex s : Int) then
          (selectSlideV2 s ((max 0 (min ((l.length : Int) - 1)
              ((getCurrentSlideIndex s : Int) + (if 0 < deltaY then 1 else -1))) : Int) : ℚ)
            { behavior := Behavior.smooth }, true)
        else (s, true) := by
  unfold handleWheel
  rw [if_neg (by simp : ¬((false : Bool) = true))]
  rw [hsc, if_neg (by simp : ¬((false : Bool) = true))]
  rw [hs]
  dsimp only
  rw [if_neg (by omega : ¬(l.length ≤ 1))]

/-- C5: in the second variant, a wheel event under reduced motion does
nothing (default not prevented, state unchanged); otherwise default is
prevented, and with no programmatic scroll in flight the current index is
the slide closest to the container center, the next index is the current
index stepped by the wheel direction and clamped to bounds, and
`selectSlide` runs exactly when the clamped index differs. -/
theorem c5_handleWheel (s : State) (l : List Slide) (pref : Bool) (deltaY : ℚ)
    (hs : s.slides = some l) (hne : l ≠ []) :
    (pref = true → handleWheel pref deltaY s = (s, false)) ∧
      (pref = false → (handleWheel pref deltaY s).2 = true) ∧
      (pref = false → s.isScrolling = false →
        (getCurrentSlideIndex s < l.length ∧
          ∀ j (hj : j < l.length) (hc : getCurrentSlideIndex s < l.length),
            slideDist (containerCenter s) (l.get ⟨getCurrentSlideIndex s, hc⟩)
              ≤ slideDist (containerCenter s) (l.get ⟨j, hj⟩)) ∧
        ∀ nxt : Int,
          nxt = max 0 (min ((l.length : Int) - 1)
            ((getCurrentSlideIndex s : Int) + (if 0 < deltaY then 1 else -1))) →
          (nxt ≠ (getCurrentSlideIndex s : Int) →
            handleWheel pref deltaY s
              = (selectSlideV2 s (nxt : ℚ) { behavior := Behavior.smooth }, true)) ∧
          (nxt = (getCurrentSlideIndex s : Int) →
            handleWheel pref deltaY s = (s, true))) := by
  refine ⟨?_, ?_, ?_⟩
  · intro hp
    subst hp
    simp [handleWheel]
  · intro hp
    subst hp
    by_cases hsc : s.isScrolling
    · simp [handleWheel, hsc]
    · by_cases hlen1 : l.length ≤ 1
      · simp [handleWheel, hsc, hs, hlen1]
      · rw [handleWheel_active s l deltaY hs (by simpa using hsc) (by omega)]
        split_ifs <;> rfl
  · intro hp hsc
    subst hp
    refine ⟨getCurrentSlideIndex_spec s l hs hne, ?_⟩
    intro nxt hnxt
    by_cases hlen1 : l.length ≤ 1
    · have hl1 : l.length = 1 := by
        have := List.length_pos.mpr hne
        omega
      have hc0 : getCurrentSlideIndex s = 0 := by
        have := (getCurrentSlideIndex_spec s l hs hne).1
        omega
      have hn0 : nxt = 0 := by
        by_cases hd : (0 : ℚ) < deltaY
        · rw [if_pos hd] at hnxt
          omega
        · rw [if_neg hd] at hnxt
          omega
      constructor
      · intro hneq
        exact absurd (by omega) hneq
      · intro heq
        simp [handleWheel, hsc, hs, hlen1]
    · subst hnxt
      constructor
      · intro hneq
        rw [handleWheel_active s l deltaY hs hsc (by omega)]
        rw [if_pos hneq]
      · intro heq
        rw [handleWheel_active s l deltaY hs hsc (by omega)]
        rw [if_neg (not_not_intro heq)]

/-- C5 witness: three slides, no reduced motion, downward wheel. -/
theorem c5_handleWheel_witness :
    ((demoState 3).slides = some (demoSlides 3) ∧ demoSlides 3 ≠ []) ∧
    ((false = true → handleWheel false 5 (demoState 3) = (demoState 3, false)) ∧
      (false = false → (handleWheel false 5 (demoState 3)).2 = true) ∧
      (false = false → (demoState 3).isScrolling = false →
        (getCurrentSlideIndex (demoState 3) < (demoSlides 3).length ∧
          ∀ j (hj : j < (demoSlides 3).length)
            (hc : getCurrentSlideIndex (demoState 3) < (demoSlides 3).length),
            slideDist (containerCenter (demoState 3))
                ((demoSlides 3).get ⟨getCurrentSlideIndex (demoState 3), hc⟩)
              ≤ slideDist (containerCenter (demoState 3)) ((demoSlides 3).get ⟨j, hj⟩)) ∧
        ∀ nxt : Int,
          nxt = max 0 (min (((demoSlides 3).length : Int) - 1)
            ((getCurrentSlideIndex (demoState 3) : Int) + (if (0 : ℚ) < 5 then 1 else -1))) →
          (nxt ≠ (getCurrentSlideIndex (demoState 3) : Int) →
            handleWheel false 5 (demoState 3)
              = (selectSlideV2 (demoState 3) (nxt : ℚ) { behavior := Behavior.smooth }, true)) ∧
          (nxt = (getCurrentSlideIndex (demoState 3) : Int) →
            handleWheel false 5 (demoState 3) = (demoState 3, true)))) :=
  ⟨⟨rfl, by decide⟩,
    c5_handleWheel (demoState 3) (demoSlides 3) false 5 rfl (by decide)⟩

end VerticalSlideshow
